import Mathlib

/-!
Verification of the Data-analyzer repository's retrieval-augmented answering
frontend and (spec-modelled) backend pipeline.

Part 1 embeds the frontend TypeScript that is present in the repository:
`buildChatBody` / `sendChatMessage` from `frontend/src/lib/api.ts`, the
legacy client from the default frontend, the `ChatResponse` type, and the
`Home` page tab state machine from `page.tsx`.

Part 2 models the backend RAG service (chunk splitting, cosine similarity,
retrieval, document lifecycle), which is not among the provided sources;
those definitions are modelled from the specification and marked as such.
-/

namespace DataAnalyzer

/-- The enhanced frontend chat message type (`api.ts`): all fields optional,
with `fileId` / `message` as camelCase / legacy aliases of `file_id` /
`user_message`.  Numeric generation parameters are modelled exactly:
integers as `Int`, float literals as `ℚ`. -/
structure ChatMessage where
  file_id : Option String := none
  fileId : Option String := none
  message : Option String := none
  user_message : Option String := none
  top_k : Option Int := none
  temperature : Option ℚ := none
  top_p : Option ℚ := none
  max_output_tokens : Option Int := none
  deriving DecidableEq, Repr

/-- The request body produced by `buildChatBody`. -/
structure ChatBody where
  file_id : String
  user_message : String
  top_k : Int
  temperature : ℚ
  top_p : ℚ
  max_output_tokens : Int
  deriving DecidableEq, Repr

/-- JavaScript truthiness of an optional string: `undefined`, `null` and the
empty string are falsy (`if (!file_id) throw ...`). -/
def jsTruthy : Option String → Bool
  | some s => s != ""
  | none => false

/-- The JavaScript nullish coalescing operator `a ?? b` on optional strings:
falls through only on `null` / `undefined`, not on the empty string. -/
def jsCoalesce (a b : Option String) : Option String :=
  match a with
  | some s => some s
  | none => b

/-- `buildChatBody` from `frontend/src/lib/api.ts`: coalesces the alias
fields with `??`, throws `"file_id missing"` / `"message missing"` on a
falsy result, and fills the defaults `top_k = 3`, `temperature = 0.2`,
`top_p = 0.9`, `max_output_tokens = 768` for omitted parameters. -/
def buildChatBody (m : ChatMessage) : Except String ChatBody :=
  let fid := jsCoalesce m.file_id m.fileId
  let umsg := jsCoalesce m.user_message m.message
  if jsTruthy fid then
    if jsTruthy umsg then
      .ok { file_id := fid.getD ""
            user_message := umsg.getD ""
            top_k := m.top_k.getD 3
            temperature := m.temperature.getD 0.2
            top_p := m.top_p.getD 0.9
            max_output_tokens := m.max_output_tokens.getD 768 }
    else .error "message missing"
  else .error "file_id missing"

/-- A JSON scalar value, as serialized into the request body. -/
inductive JVal where
  | s : String → JVal
  | i : Int → JVal
  | q : ℚ → JVal
  deriving DecidableEq, Repr

/-- A serialized JSON object: an ordered list of key/value fields. -/
def JObj := List (String × JVal)

instance : DecidableEq JObj := inferInstanceAs (DecidableEq (List (String × JVal)))

/-- Field lookup in a serialized JSON object. -/
def jLookup (o : JObj) (k : String) : Option JVal :=
  (o.find? fun p => p.1 == k).map Prod.snd

/-- Serialization of the enhanced client's chat body: all six fields are
always present. -/
def chatBodyJson (b : ChatBody) : JObj :=
  [("file_id", .s b.file_id), ("user_message", .s b.user_message),
   ("top_k", .i b.top_k), ("temperature", .q b.temperature),
   ("top_p", .q b.top_p), ("max_output_tokens", .i b.max_output_tokens)]

/-- The legacy (default-frontend) chat message type
(`default-frontend/src/types/index.ts`): only `message` and an optional
`file_id`; no generation parameters exist on this type. -/
structure LegacyChatMessage where
  message : String
  file_id : Option String := none
  deriving DecidableEq, Repr

/-- The body posted by the legacy `sendChatMessage`
(`frontend/src/lib/api.ts`, default client): the message object is posted
as-is, with no defaults injected; an absent `file_id` is simply omitted. -/
def legacyChatBodyJson (m : LegacyChatMessage) : JObj :=
  ("message", .s m.message) ::
    (match m.file_id with
     | some f => [("file_id", .s f)]
     | none => [])

/-- An HTTP failure as observed by the axios catch block: the optional
status of `err?.response?.status` (absent for pure network errors). -/
structure HttpFailure where
  status : Option Nat
  deriving DecidableEq, Repr

/-- A network oracle: maps an endpoint and a body to a response or failure. -/
def Net := String → JObj → Except HttpFailure String

/-- The fallback logic of the enhanced `sendChatMessage`: post to `/chat`;
on a failure carrying HTTP status 404, post the identical body once to
`/api/chat` and return that result; propagate every other failure.  The
second component is the trace of (endpoint, body) calls actually issued. -/
def postChatWithFallback (net : Net) (body : JObj) :
    Except HttpFailure String × List (String × JObj) :=
  match net "/chat" body with
  | .ok r => (.ok r, [("/chat", body)])
  | .error e =>
    if e.status = some 404 then
      (net "/api/chat" body, [("/chat", body), ("/api/chat", body)])
    else
      (.error e, [("/chat", body)])

/-- The enhanced `sendChatMessage`: build the body (propagating a build
error with an empty call trace, i.e. before any network call), then post
with the 404 fallback. -/
def sendChatMessage (net : Net) (m : ChatMessage) :
    Except String (Except HttpFailure String) × List (String × JObj) :=
  match buildChatBody m with
  | .error e => (.error e, [])
  | .ok b =>
    let r := postChatWithFallback net (chatBodyJson b)
    (.ok r.1, r.2)

/-- A cited source entry of the enhanced `ChatResponse`: either a
`{ snippet, score }` pair or a bare string. -/
structure SnippetScore where
  snippet : String
  score : ℚ
  deriving DecidableEq, Repr

/-- The enhanced frontend `ChatResponse` type (`api.ts`): every field is
optional, and each source entry is either a snippet/score pair or a plain
string.  The legacy `ChatResponse` declarations in the repository
(`{ response: string; sources: string[] }`) inhabit exactly the
string-sourced, `used_top_k`-free corner of this type. -/
structure ChatResponse where
  answer : Option String := none
  response : Option String := none
  sources : Option (List (SnippetScore ⊕ String)) := none
  used_top_k : Option Int := none
  model : Option String := none
  deriving DecidableEq, Repr

/-- Whether a source entry is a snippet/score pair (as the spec demands). -/
def sourceIsPair : SnippetScore ⊕ String → Bool
  | .inl _ => true
  | .inr _ => false

/-- The response shape promised by the spec's `answer` contract: an answer
string, sources that are all snippet/score pairs, and a `used_top_k`. -/
def chatResponseSpecShaped (r : ChatResponse) : Bool :=
  r.answer.isSome &&
    (match r.sources with
     | some l => l.all sourceIsPair
     | none => false) &&
    r.used_top_k.isSome

/-- Modelled from the spec: the `AnswerRecord` shape of the `answer`
operation (`{ answer, sources: [{snippet, score}], used_top_k }`). -/
structure SpecAnswerRecord where
  answer : String
  sources : List SnippetScore
  used_top_k : Int
  deriving DecidableEq, Repr

/-- Embedding of a spec-shaped answer record into the code's response type. -/
def specAnswerToChatResponse (s : SpecAnswerRecord) : ChatResponse :=
  { answer := some s.answer
    sources := some (s.sources.map Sum.inl)
    used_top_k := some s.used_top_k }

/-! ## The Home page tab state machine (`page.tsx`) -/

/-- The part of the upload response the Home page stores and hands to the
Analysis and Chat tabs. -/
structure FileUploadResponse where
  filename : String
  file_id : String
  deriving DecidableEq, Repr

/-- The three tabs of the Home page. -/
inductive Tab where
  | upload
  | analysis
  | chat
  deriving DecidableEq, Repr

/-- The Home component's state: the stored upload response (initially
`null`) and the active tab (initially `upload`). -/
structure HomeState where
  uploadedFile : Option FileUploadResponse
  activeTab : Tab
  deriving DecidableEq, Repr

/-- Initial state of the Home component. -/
def initialHomeState : HomeState := ⟨none, .upload⟩

/-- `disabled: !uploadedFile` on the Analysis and Chat tabs. -/
def tabDisabled (s : HomeState) : Tab → Bool
  | .upload => false
  | .analysis => s.uploadedFile.isNone
  | .chat => s.uploadedFile.isNone

/-- User events on the Home page: clicking a tab, a successful upload
callback, and the "Start Chatting" button on the Analysis view. -/
inductive HomeEvent where
  | clickTab : Tab → HomeEvent
  | fileUploaded : FileUploadResponse → HomeEvent
  | startChatClick : HomeEvent

/-- One step of the Home component: `onClick={() => !isDisabled &&
setActiveTab(tab.id)}`; `handleFileUploaded` stores the response and
activates Analysis; the "Start Chatting" button is rendered only on the
Analysis view with a stored upload and activates Chat. -/
def homeStep (s : HomeState) : HomeEvent → HomeState
  | .clickTab t => if tabDisabled s t then s else { s with activeTab := t }
  | .fileUploaded r => ⟨some r, .analysis⟩
  | .startChatClick =>
    if s.activeTab == Tab.analysis && s.uploadedFile.isSome then
      { s with activeTab := .chat }
    else s

/-- States of the Home component reachable from the initial state. -/
inductive HomeReachable : HomeState → Prop
  | init : HomeReachable initialHomeState
  | step {s : HomeState} (e : HomeEvent) :
      HomeReachable s → HomeReachable (homeStep s e)

/-! ## Part 2: the backend RAG core

The backend service (`backend/app/services/rag_service.py`) is not among the
provided sources — only its callers and the README describe it.  The
definitions below are therefore modelled from the specification. -/

/-- Modelled from the spec: the dot product of two embedding vectors
(`dot(a,b)`), missing with `rag_service.py`; componentwise product summed,
truncating at the shorter vector. -/
def dot : List ℝ → List ℝ → ℝ
  | x :: xs, y :: ys => x * y + dot xs ys
  | _, _ => 0

/-- Modelled from the spec: the squared Euclidean norm of a vector, so that
`norm(a) = sqrt (normSq a)`. -/
def normSq (l : List ℝ) : ℝ := dot l l

/-- Modelled from the spec: cosine similarity
`dot(a,b) / (norm(a) * norm(b))`, defined as `0` whenever either vector has
zero norm (the spec's guard against a zero denominator), missing with
`rag_service.py`. -/
noncomputable def cosineSim (a b : List ℝ) : ℝ :=
  if normSq a = 0 ∨ normSq b = 0 then 0
  else dot a b / (Real.sqrt (normSq a) * Real.sqrt (normSq b))

/-- Modelled from the spec: a chunk of a document — its original position,
text span and embedding vector. -/
structure Chunk where
  pos : ℕ
  text : String
  vec : List ℝ

/-- Modelled from the spec: one retrieval result — a chunk reference with
its similarity score. -/
structure Scored where
  chunk : Chunk
  score : ℝ

/-- The ranking order of retrieval results: higher score first, ties broken
by ascending original chunk position. -/
def rankLe (x y : Scored) : Prop :=
  y.score < x.score ∨ (x.score = y.score ∧ x.chunk.pos ≤ y.chunk.pos)

noncomputable instance : DecidableRel rankLe := fun x y =>
  inferInstanceAs
    (Decidable (y.score < x.score ∨ (x.score = y.score ∧ x.chunk.pos ≤ y.chunk.pos)))

instance : IsTotal Scored rankLe where
  total a b := by
    rcases lt_trichotomy a.score b.score with h | h | h
    · exact Or.inr (Or.inl h)
    · rcases Nat.le_total a.chunk.pos b.chunk.pos with hp | hp
      · exact Or.inl (Or.inr ⟨h, hp⟩)
      · exact Or.inr (Or.inr ⟨h.symm, hp⟩)
    · exact Or.inl (Or.inl h)

instance : IsTrans Scored rankLe where
  trans a b c hab hbc := by
    rcases hab with h1 | ⟨e1, p1⟩ <;> rcases hbc with h2 | ⟨e2, p2⟩
    · exact Or.inl (lt_trans h2 h1)
    · exact Or.inl (lt_of_le_of_lt (le_of_eq e2.symm) h1)
    · exact Or.inl (lt_of_lt_of_le h2 (le_of_eq e1.symm))
    · exact Or.inr ⟨e1.trans e2, le_trans p1 p2⟩

/-- Modelled from the spec: score every chunk of a document index against
the query vector. -/
noncomputable def scoreAll (idx : List Chunk) (q : List ℝ) : List Scored :=
  idx.map fun c => ⟨c, cosineSim q c.vec⟩

/-- Modelled from the spec: `retrieve(documentIndex, queryVector, topK)` —
a brute-force linear scan: score all chunks, sort by descending score with
ties broken by ascending original position, and keep the first `topK`,
missing with `rag_service.py`. -/
noncomputable def retrieve (idx : List Chunk) (q : List ℝ) (topK : ℕ) : List Scored :=
  (List.insertionSort rankLe (scoreAll idx q)).take topK

/-- Builds the chunks of a document index, numbering positions from `n`. -/
def buildIndexFrom (n : ℕ) : List (String × List ℝ) → List Chunk
  | [] => []
  | tv :: rest => ⟨n, tv.1, tv.2⟩ :: buildIndexFrom (n + 1) rest

/-- Modelled from the spec: a committed document index — the chunk texts
with their embedding vectors, positions numbered in original text order. -/
def buildIndex (tvs : List (String × List ℝ)) : List Chunk :=
  buildIndexFrom 0 tvs

/-! ### ChunkSplitter and the document lifecycle -/

/-- Index of the last whitespace character inside a window, if any. -/
def lastWsIndex (w : List Char) : Option ℕ :=
  ((List.range w.length).filter fun i => (w.getD i ' ').isWhitespace).getLast?

/-- Modelled from the spec: the recursive splitting loop of
`split(text, max_chunk_len, overlap_len)`, missing with `rag_service.py`.
A window of `maxLen` characters is cut at the last whitespace boundary when
one exists past the overlap, and hard-cut at `maxLen` otherwise; the next
chunk starts `ov` characters before the previous end.  The fuel argument
(instantiated with the text length, sufficient since every iteration
consumes at least one character) and the `max 1` guard only make the model
total for degenerate parameters; the spec requires `0 < ov < maxLen`. -/
def splitGo (maxLen ov : ℕ) : ℕ → List Char → List (List Char)
  | 0, _ => []
  | fuel + 1, t =>
    if t.length ≤ maxLen then [t]
    else
      let w := t.take maxLen
      let cutPos :=
        match lastWsIndex w with
        | some i => if ov < i then i else maxLen
        | none => maxLen
      t.take cutPos :: splitGo maxLen ov fuel (t.drop (max 1 (cutPos - ov)))

/-- Modelled from the spec: `split(text, max_chunk_len, overlap_len)` —
empty or whitespace-only input produces zero chunks; otherwise the text is
segmented into overlapping windows, missing with `rag_service.py`. -/
def split (t : List Char) (maxLen ov : ℕ) : List (List Char) :=
  if t.all Char.isWhitespace then [] else splitGo maxLen ov t.length t

/-- Modelled from the spec: the lifecycle state of a document index. -/
inductive DocState where
  | ingesting
  | ready (chunks : List (List Char))
  | failed (reason : String)
  deriving DecidableEq, Repr

/-- Modelled from the spec: the process-wide registry mapping a document
identifier to its index state; newest entry wins on lookup. -/
abbrev Registry := List (String × DocState)

/-- Registry lookup (`get(document_id)`). -/
def lookupDoc (reg : Registry) (d : String) : Option DocState :=
  (reg.find? fun p => p.1 == d).map Prod.snd

/-- The result reported by `ingest`. -/
inductive IngestStatus where
  | ready
  | failed (reason : String)
  deriving DecidableEq, Repr

/-- Modelled from the spec: `ingest(document_id, text)` — split the text;
zero chunks mark the document Failed with reason
`"no extractable content"`, otherwise the chunk set is committed and the
document becomes Ready, missing with `rag_service.py`. -/
def ingest (reg : Registry) (d : String) (text : List Char) (maxLen ov : ℕ) :
    Registry × IngestStatus :=
  let cs := split text maxLen ov
  if cs.isEmpty then
    ((d, .failed "no extractable content") :: reg, .failed "no extractable content")
  else
    ((d, .ready cs) :: reg, .ready)

/-- The error surface of the `answer` operation's document gate. -/
inductive AnswerFailure where
  | notFound
  | notReady (reason : Option String)
  deriving DecidableEq, Repr

/-- Modelled from the spec: the document gate of
`answer(document_id, ...)` — unknown documents yield NotFoundError, an
Ingesting or Failed document yields NotReadyError (with the failure reason
when applicable), and only a Ready document exposes its committed chunk
set, missing with `rag_service.py`. -/
def answerDoc (reg : Registry) (d : String) : Except AnswerFailure (List (List Char)) :=
  match lookupDoc reg d with
  | none => .error .notFound
  | some .ingesting => .error (.notReady none)
  | some (.failed r) => .error (.notReady (some r))
  | some (.ready cs) => .ok cs

instance {ε : Type u} {α : Type v} [DecidableEq ε] [DecidableEq α] :
    DecidableEq (Except ε α) := fun x y =>
  match x, y with
  | .ok a, .ok b => decidable_of_iff (a = b) ⟨fun h => h ▸ rfl, Except.ok.inj⟩
  | .error a, .error b => decidable_of_iff (a = b) ⟨fun h => h ▸ rfl, Except.error.inj⟩
  | .ok _, .error _ => isFalse fun hc => Except.noConfusion hc
  | .error _, .ok _ => isFalse fun hc => Except.noConfusion hc

/-! ### Concrete values used by individual claims -/

/-- A chat message that supplies `top_k` but omits the three remaining
generation parameters. -/
def chatMsgPartial : ChatMessage :=
  { file_id := some "f1", user_message := some "What drove revenue growth?",
    top_k := some 5 }

/-- A registry holding one document that is still ingesting. -/
def ingestingRegistry : Registry := [("doc-ing", DocState.ingesting)]

/-- A registry holding one failed document. -/
def failedRegistry : Registry := [("doc-f", DocState.failed "embedding backend down")]

/-- A chat message carrying a negative `top_k` and an out-of-range
temperature. -/
def chatMsgNegTopK : ChatMessage :=
  { file_id := some "doc1", user_message := some "summarize",
    top_k := some (-1), temperature := some 5 }

/-- A network oracle that accepts every request. -/
def okNet : Net := fun _ _ => .ok "resp"

/-- A network oracle whose `/chat` endpoint fails with HTTP 404 and whose
other endpoints succeed. -/
def net404 : Net := fun ep _ =>
  if ep == "/chat" then .error ⟨some 404⟩ else .ok "fallback-resp"

/-- A sample serialized chat body. -/
def sampleBody : JObj := [("file_id", .s "doc1"), ("user_message", .s "hi")]

/-- A response in the legacy backend shape `{ response, sources: string[] }`:
a well-typed inhabitant of the code's `ChatResponse`. -/
def legacyStyleResponse : ChatResponse :=
  { response := some "Growth was driven by subscriptions.",
    sources := some [Sum.inr "chunk snippet"] }

/-- A chat message whose snake_case `file_id` is present but empty while the
`fileId` alias and the message are present and non-empty. -/
def chatMsgEmptyFileId : ChatMessage :=
  { file_id := some "", fileId := some "alt-id", message := some "hello" }

/-- A chat message carrying both alias spellings of both fields. -/
def chatMsgBothAliases : ChatMessage :=
  { file_id := some "f2", fileId := some "ignored",
    user_message := some "u2", message := some "legacy" }

end DataAnalyzer

namespace DataAnalyzer

/-! # Theorems

One theorem (plus counterexample / witness where required) per claim. -/

/-- C1, counterexample: the legacy client (`default-frontend`
`sendChatMessage`) posts the chat message unchanged, so a request whose
caller omitted `top_k` (and every other generation parameter) is sent with
no `top_k` field at all — the body does not contain the default `top_k = 3`. -/
theorem claim1_counterexample :
    jLookup (legacyChatBodyJson ⟨"What drove revenue growth?", some "f1"⟩) "top_k" = none ∧
    jLookup (legacyChatBodyJson ⟨"What drove revenue growth?", some "f1"⟩) "temperature" = none ∧
    jLookup (legacyChatBodyJson ⟨"What drove revenue growth?", some "f1"⟩) "top_p" = none ∧
    jLookup (legacyChatBodyJson ⟨"What drove revenue growth?", some "f1"⟩) "max_output_tokens" = none := by
  decide

/-- C1, amended: every request built by the enhanced client's
`buildChatBody` is well-formed for any combination of omitted generation
parameters (all four may be omitted), and each field of the built body is
the caller's value when supplied and the default — `top_k = 3`,
`temperature = 0.2`, `top_p = 0.9`, `max_output_tokens = 768` — when that
parameter is omitted; in particular each omitted parameter appears in the
serialized body with its default value. -/
theorem claim1_defaults (m : ChatMessage)
    (hf : jsTruthy (jsCoalesce m.file_id m.fileId) = true)
    (hm : jsTruthy (jsCoalesce m.user_message m.message) = true) :
    ∃ b, buildChatBody m = .ok b ∧
      b.top_k = m.top_k.getD 3 ∧
      b.temperature = m.temperature.getD 0.2 ∧
      b.top_p = m.top_p.getD 0.9 ∧
      b.max_output_tokens = m.max_output_tokens.getD 768 ∧
      (m.top_k = none → jLookup (chatBodyJson b) "top_k" = some (.i 3)) ∧
      (m.temperature = none → jLookup (chatBodyJson b) "temperature" = some (.q 0.2)) ∧
      (m.top_p = none → jLookup (chatBodyJson b) "top_p" = some (.q 0.9)) ∧
      (m.max_output_tokens = none →
        jLookup (chatBodyJson b) "max_output_tokens" = some (.i 768)) := by
  refine ⟨⟨(jsCoalesce m.file_id m.fileId).getD "",
          (jsCoalesce m.user_message m.message).getD "",
          m.top_k.getD 3, m.temperature.getD 0.2, m.top_p.getD 0.9,
          m.max_output_tokens.getD 768⟩,
      ?_, rfl, rfl, rfl, rfl, ?_, ?_, ?_, ?_⟩
  · simp [buildChatBody, hf, hm]
  · intro h; rw [h]; rfl
  · intro h; rw [h]; rfl
  · intro h; rw [h]; rfl
  · intro h; rw [h]; rfl

/-- C1, witness for the amended theorem at a message that supplies `top_k`
and omits the other three parameters: the supplied value is kept, the
omitted ones are defaulted. -/
theorem claim1_defaults_witness :
    jsTruthy (jsCoalesce chatMsgPartial.file_id chatMsgPartial.fileId) = true ∧
    jsTruthy (jsCoalesce chatMsgPartial.user_message chatMsgPartial.message) = true ∧
    (∃ b, buildChatBody chatMsgPartial = .ok b ∧
      b.top_k = chatMsgPartial.top_k.getD 3 ∧
      b.temperature = chatMsgPartial.temperature.getD 0.2 ∧
      b.top_p = chatMsgPartial.top_p.getD 0.9 ∧
      b.max_output_tokens = chatMsgPartial.max_output_tokens.getD 768 ∧
      (chatMsgPartial.top_k = none → jLookup (chatBodyJson b) "top_k" = some (.i 3)) ∧
      (chatMsgPartial.temperature = none →
        jLookup (chatBodyJson b) "temperature" = some (.q 0.2)) ∧
      (chatMsgPartial.top_p = none → jLookup (chatBodyJson b) "top_p" = some (.q 0.9)) ∧
      (chatMsgPartial.max_output_tokens = none →
        jLookup (chatBodyJson b) "max_output_tokens" = some (.i 768))) :=
  ⟨rfl, rfl, claim1_defaults chatMsgPartial rfl rfl⟩

/-- C2, counterexample: the code's `ChatResponse` admits a successful
response in the legacy shape `{ response, sources: string[] }` — no
`answer` field, a plain-string source entry, and no `used_top_k` — which is
not the object shape the claim promises. -/
theorem claim2_counterexample :
    chatResponseSpecShaped legacyStyleResponse = false ∧
    legacyStyleResponse.answer = none ∧
    legacyStyleResponse.used_top_k = none := by
  decide

/-- C2, amended: the response type makes every field optional and lets each
source entry be either a `{snippet, score}` pair or a plain string; every
answer of the spec's promised shape is representable (its embedding
satisfies the spec-shape predicate and preserves the fields), but the type
itself does not force that shape. -/
theorem claim2_response_shape (s : SpecAnswerRecord) :
    chatResponseSpecShaped (specAnswerToChatResponse s) = true ∧
    (specAnswerToChatResponse s).answer = some s.answer ∧
    (specAnswerToChatResponse s).used_top_k = some s.used_top_k ∧
    (specAnswerToChatResponse s).sources = some (s.sources.map Sum.inl) := by
  refine ⟨?_, rfl, rfl, rfl⟩
  simp [chatResponseSpecShaped, specAnswerToChatResponse, List.all_eq_true, sourceIsPair]

/-- C3, counterexample: a request with `top_k = -1` and temperature `5` is
not rejected — `buildChatBody` returns a well-formed body carrying the
malformed values, and `sendChatMessage` then issues a network call with
that body, so no `ValidationError` happens before the network call. -/
theorem claim3_counterexample :
    buildChatBody chatMsgNegTopK = .ok ⟨"doc1", "summarize", -1, 5, 0.9, 768⟩ ∧
    (sendChatMessage okNet chatMsgNegTopK).2.map Prod.fst = ["/chat"] ∧
    jLookup (chatBodyJson ⟨"doc1", "summarize", -1, 5, 0.9, 768⟩) "top_k" =
      some (.i (-1)) :=
  ⟨rfl, rfl, rfl⟩

/-- C3, amended: malformed numeric parameters are not rejected before the
network call — the client throws only for a missing or empty file id or
message, and any `top_k` (negative included) and any temperature are
forwarded verbatim in the built body; the other two error surfaces hold as
claimed: an unknown `document_id` yields NotFoundError, and a document in
state Ingesting or Failed yields NotReadyError (with the failure reason
when applicable). -/
theorem claim3_error_surfaces (m : ChatMessage) (t : Int) (temp : ℚ)
    (reg : Registry) (d : String) :
    (jsTruthy (jsCoalesce m.file_id m.fileId) = true →
      jsTruthy (jsCoalesce m.user_message m.message) = true →
      m.top_k = some t → m.temperature = some temp →
      ∃ b, buildChatBody m = .ok b ∧ b.top_k = t ∧ b.temperature = temp) ∧
    (lookupDoc reg d = none → answerDoc reg d = .error .notFound) ∧
    (lookupDoc reg d = some .ingesting →
      answerDoc reg d = .error (.notReady none)) ∧
    (∀ r, lookupDoc reg d = some (.failed r) →
      answerDoc reg d = .error (.notReady (some r))) := by
  refine ⟨fun hf hm ht htemp => ?_, fun h => ?_, fun h => ?_, fun r h => ?_⟩
  · refine ⟨⟨(jsCoalesce m.file_id m.fileId).getD "",
            (jsCoalesce m.user_message m.message).getD "", t, temp,
            m.top_p.getD 0.9, m.max_output_tokens.getD 768⟩, ?_, rfl, rfl⟩
    simp [buildChatBody, hf, hm, ht, htemp]
  · simp [answerDoc, h]
  · simp [answerDoc, h]
  · simp [answerDoc, h]

/-- C3, witness: the no-validation half at a concrete malformed message,
and the NotFound / NotReady halves at concrete registries. -/
theorem claim3_error_surfaces_witness :
    jsTruthy (jsCoalesce chatMsgNegTopK.file_id chatMsgNegTopK.fileId) = true ∧
    jsTruthy (jsCoalesce chatMsgNegTopK.user_message chatMsgNegTopK.message) = true ∧
    chatMsgNegTopK.top_k = some (-1) ∧
    chatMsgNegTopK.temperature = some 5 ∧
    (∃ b, buildChatBody chatMsgNegTopK = .ok b ∧ b.top_k = -1 ∧ b.temperature = 5) ∧
    lookupDoc [] "missing-doc" = none ∧
    answerDoc [] "missing-doc" = .error .notFound ∧
    lookupDoc ingestingRegistry "doc-ing" = some .ingesting ∧
    answerDoc ingestingRegistry "doc-ing" = .error (.notReady none) ∧
    lookupDoc failedRegistry "doc-f" = some (.failed "embedding backend down") ∧
    answerDoc failedRegistry "doc-f" =
      .error (.notReady (some "embedding backend down")) :=
  ⟨rfl, rfl, rfl, rfl,
   (claim3_error_surfaces chatMsgNegTopK (-1) 5 [] "missing-doc").1 rfl rfl rfl rfl,
   rfl,
   (claim3_error_surfaces chatMsgNegTopK (-1) 5 [] "missing-doc").2.1 rfl,
   rfl,
   (claim3_error_surfaces chatMsgNegTopK (-1) 5 ingestingRegistry "doc-ing").2.2.1 rfl,
   rfl,
   (claim3_error_surfaces chatMsgNegTopK (-1) 5 failedRegistry "doc-f").2.2.2
     "embedding backend down" rfl⟩

/-- C8: `sendChatMessage`'s posting logic first calls `/chat`; exactly on a
failure with HTTP status 404 it posts the identical body once to
`/api/chat` and returns that result; every other first-call failure is
propagated unchanged, with no fallback call. -/
theorem claim8_fallback (net : Net) (body : JObj) :
    (∀ r, net "/chat" body = .ok r →
      postChatWithFallback net body = (.ok r, [("/chat", body)])) ∧
    (∀ e, net "/chat" body = .error e → e.status = some 404 →
      postChatWithFallback net body =
        (net "/api/chat" body, [("/chat", body), ("/api/chat", body)])) ∧
    (∀ e, net "/chat" body = .error e → e.status ≠ some 404 →
      postChatWithFallback net body = (.error e, [("/chat", body)])) := by
  refine ⟨fun r h => ?_, fun e h hs => ?_, fun e h hs => ?_⟩
  · simp [postChatWithFallback, h]
  · simp [postChatWithFallback, h, hs]
  · simp [postChatWithFallback, h, hs]

/-- C8, witness: with a network on which `/chat` fails with status 404, the
fallback call to `/api/chat` is issued with the identical body and its
result is returned. -/
theorem claim8_fallback_witness :
    net404 "/chat" sampleBody = .error ⟨some 404⟩ ∧
    (⟨some 404⟩ : HttpFailure).status = some 404 ∧
    postChatWithFallback net404 sampleBody =
      (net404 "/api/chat" sampleBody, [("/chat", sampleBody), ("/api/chat", sampleBody)]) :=
  ⟨rfl, rfl, (claim8_fallback net404 sampleBody).2.1 ⟨some 404⟩ rfl rfl⟩

/-- C9, counterexample: with `file_id` present but empty, `fileId` present
and non-empty, and `message` present, `buildChatBody` still throws
`"file_id missing"` — JavaScript `??` does not fall through on the empty
string and `!file_id` treats it as falsy — refuting "throws exactly when
neither `file_id` nor `fileId` is provided, or neither message alias is". -/
theorem claim9_counterexample :
    chatMsgEmptyFileId.file_id.isSome = true ∧
    chatMsgEmptyFileId.fileId.isSome = true ∧
    chatMsgEmptyFileId.message.isSome = true ∧
    buildChatBody chatMsgEmptyFileId = .error "file_id missing" :=
  ⟨rfl, rfl, rfl, rfl⟩

/-- C9, amended: `buildChatBody` accepts `fileId` / `message` as aliases,
prefers the snake_case field whenever it is present (even when empty), and
succeeds exactly when the coalesced file id and the coalesced message are
both present and non-empty (JavaScript truthiness). -/
theorem claim9_alias_exact (m : ChatMessage) :
    ((buildChatBody m).isOk =
      (jsTruthy (jsCoalesce m.file_id m.fileId) &&
        jsTruthy (jsCoalesce m.user_message m.message))) ∧
    (∀ a, m.file_id = some a → ∀ b, buildChatBody m = Except.ok b → b.file_id = a) ∧
    (∀ u, m.user_message = some u → ∀ b, buildChatBody m = Except.ok b →
      b.user_message = u) := by
  refine ⟨?_, fun a ha b hb => ?_, fun u hu b hb => ?_⟩
  · by_cases hf : jsTruthy (jsCoalesce m.file_id m.fileId) <;>
      by_cases hm : jsTruthy (jsCoalesce m.user_message m.message) <;>
      simp [buildChatBody, hf, hm, Except.isOk, Except.toBool]
  · simp only [buildChatBody, jsCoalesce, ha] at hb
    split_ifs at hb
    rw [← Except.ok.inj hb]
    rfl
  · simp only [buildChatBody, jsCoalesce, hu] at hb
    split_ifs at hb
    rw [← Except.ok.inj hb]
    rfl

/-- C9, witness for the amended theorem at a message carrying both alias
spellings. -/
theorem claim9_alias_exact_witness :
    chatMsgBothAliases.file_id = some "f2" ∧
    chatMsgBothAliases.user_message = some "u2" ∧
    buildChatBody chatMsgBothAliases = .ok ⟨"f2", "u2", 3, 0.2, 0.9, 768⟩ ∧
    (⟨"f2", "u2", 3, 0.2, 0.9, 768⟩ : ChatBody).file_id = "f2" ∧
    (⟨"f2", "u2", 3, 0.2, 0.9, 768⟩ : ChatBody).user_message = "u2" :=
  ⟨rfl, rfl, rfl,
   (claim9_alias_exact chatMsgBothAliases).2.1 "f2" rfl _ rfl,
   (claim9_alias_exact chatMsgBothAliases).2.2 "u2" rfl _ rfl⟩

/-- In every reachable Home state, a missing upload forces the Upload tab. -/
theorem home_upload_invariant (s : HomeState) (h : HomeReachable s) :
    s.uploadedFile = none → s.activeTab = Tab.upload := by
  induction h with
  | init => intro _; rfl
  | @step s e hr ih =>
    cases e with
    | clickTab t =>
      intro hnone
      cases hc : tabDisabled s t with
      | true =>
        simp only [homeStep, hc, if_true] at hnone ⊢
        exact ih hnone
      | false =>
        simp [homeStep, hc] at hnone ⊢
        cases t with
        | upload => simp [tabDisabled, hc]
        | analysis => simp [tabDisabled, hnone] at hc
        | chat => simp [tabDisabled, hnone] at hc
    | fileUploaded r =>
      intro hnone
      simp [homeStep] at hnone
    | startChatClick =>
      intro hnone
      cases hc : (s.activeTab == Tab.analysis && s.uploadedFile.isSome) with
      | true =>
        simp only [homeStep, hc, if_true] at hnone
        simp [hnone] at hc
      | false =>
        simp only [homeStep, hc] at hnone ⊢
        simp only [Bool.false_eq_true, if_false] at hnone ⊢
        exact ih hnone

/-- C10: in every reachable state of the Home component, the active tab can
be Analysis or Chat only when an upload response is stored, and clicking a
disabled tab leaves the state unchanged. -/
theorem claim10_tab_gating (s : HomeState) (h : HomeReachable s) :
    ((s.activeTab = Tab.analysis ∨ s.activeTab = Tab.chat) →
      s.uploadedFile.isSome = true) ∧
    (∀ t, tabDisabled s t = true → homeStep s (.clickTab t) = s) := by
  constructor
  · intro htab
    cases hn : s.uploadedFile with
    | some _ => rfl
    | none =>
      have hup := home_upload_invariant s h hn
      rcases htab with h1 | h1 <;> rw [hup] at h1 <;> cases h1
  · intro t ht
    simp [homeStep, ht]

/-! ### Backend lemmas (spec-modelled definitions) -/

/-- A vector's dot product with itself is nonnegative. -/
theorem dot_self_nonneg (l : List ℝ) : 0 ≤ dot l l := by
  induction l with
  | nil => simp [dot]
  | cons x xs ih =>
    simp only [dot]
    nlinarith [sq_nonneg x]

/-- The squared norm is nonnegative. -/
theorem normSq_nonneg (l : List ℝ) : 0 ≤ normSq l :=
  dot_self_nonneg l

/-- Cauchy–Schwarz for list dot products. -/
theorem dot_sq_le_normSq_mul (a : List ℝ) :
    ∀ b : List ℝ, (dot a b) ^ 2 ≤ normSq a * normSq b := by
  induction a with
  | nil =>
    intro b
    simp [dot, normSq]
  | cons x xs ih =>
    intro b
    cases b with
    | nil => simp [dot, normSq]
    | cons y ys =>
      have h1 := ih ys
      have h2 := dot_self_nonneg xs
      have h3 := dot_self_nonneg ys
      simp only [dot, normSq] at h1 h2 h3 ⊢
      rcases eq_or_lt_of_le h3 with hB0 | hB0
      · have hS : dot xs ys ^ 2 ≤ 0 := by
          rw [← hB0] at h1
          simpa using h1
        have hS0 : dot xs ys = 0 := by nlinarith [sq_nonneg (dot xs ys)]
        rw [← hB0, hS0]
        nlinarith [mul_nonneg h2 (sq_nonneg y)]
      · nlinarith [sq_nonneg (x * dot ys ys - y * dot xs ys),
          mul_nonneg (add_nonneg (sq_nonneg y) h3) (sub_nonneg.mpr h1),
          hB0, h2]

/-- The square root of the squared norm vanishes exactly on zero-norm
vectors. -/
theorem sqrt_normSq_eq_zero_iff (l : List ℝ) :
    Real.sqrt (normSq l) = 0 ↔ normSq l = 0 := by
  rw [Real.sqrt_eq_zero']
  exact ⟨fun h => le_antisymm h (normSq_nonneg l), le_of_eq⟩

/-- C5: the Retriever's cosine similarity equals
`dot(a,b) / (norm(a) * norm(b))` whenever the denominator is nonzero, is
defined as `0` whenever either vector has zero norm (so the total function
never divides by a zero denominator), and always lies in `[-1, 1]`. -/
theorem claim5_cosine_bounds (a b : List ℝ) :
    cosineSim a b =
      (if Real.sqrt (normSq a) * Real.sqrt (normSq b) = 0 then 0
       else dot a b / (Real.sqrt (normSq a) * Real.sqrt (normSq b))) ∧
    -1 ≤ cosineSim a b ∧ cosineSim a b ≤ 1 := by
  have hguard : (normSq a = 0 ∨ normSq b = 0) ↔
      Real.sqrt (normSq a) * Real.sqrt (normSq b) = 0 := by
    rw [mul_eq_zero, sqrt_normSq_eq_zero_iff, sqrt_normSq_eq_zero_iff]
  constructor
  · simp only [cosineSim]
    exact if_congr hguard rfl rfl
  · simp only [cosineSim]
    split_ifs with h
    · norm_num
    · push_neg at h
      obtain ⟨ha, hb⟩ := h
      have hA0 : 0 < normSq a := lt_of_le_of_ne (normSq_nonneg a) (Ne.symm ha)
      have hB0 : 0 < normSq b := lt_of_le_of_ne (normSq_nonneg b) (Ne.symm hb)
      have hD : 0 < Real.sqrt (normSq a) * Real.sqrt (normSq b) :=
        mul_pos (Real.sqrt_pos.mpr hA0) (Real.sqrt_pos.mpr hB0)
      have hcs : |dot a b| ≤ Real.sqrt (normSq a) * Real.sqrt (normSq b) := by
        rw [← Real.sqrt_sq_eq_abs, ← Real.sqrt_mul (normSq_nonneg a)]
        exact Real.sqrt_le_sqrt (dot_sq_le_normSq_mul a b)
      have habs : |dot a b / (Real.sqrt (normSq a) * Real.sqrt (normSq b))| ≤ 1 := by
        rw [abs_div, abs_of_pos hD]
        exact (div_le_one hD).mpr hcs
      exact abs_le.mp habs

/-- The positions of an index built from `n` are `n, n+1, ...`. -/
theorem map_pos_buildIndexFrom (l : List (String × List ℝ)) :
    ∀ n, (buildIndexFrom n l).map (fun c => c.pos) = List.range' n l.length := by
  induction l with
  | nil => intro n; simp [buildIndexFrom]
  | cons tv rest ih => intro n; simp [buildIndexFrom, ih, List.range']

/-- Scoring preserves the chunk positions. -/
theorem scoreAll_map_pos (idx : List Chunk) (q : List ℝ) :
    (scoreAll idx q).map (fun s => s.chunk.pos) = idx.map (fun c => c.pos) := by
  simp [scoreAll, List.map_map, Function.comp]

/-- C4: on an index built in original text order, `retrieve` returns its
results with non-increasing similarity scores, and whenever two results
have equal scores the one with the lower original chunk position comes
first. -/
theorem claim4_retrieve_sorted (tvs : List (String × List ℝ)) (q : List ℝ) (k : ℕ) :
    (retrieve (buildIndex tvs) q k).Pairwise
      (fun x y => y.score ≤ x.score ∧
        (x.score = y.score → x.chunk.pos < y.chunk.pos)) := by
  have hsorted : (List.insertionSort rankLe (scoreAll (buildIndex tvs) q)).Pairwise rankLe :=
    List.sorted_insertionSort rankLe _
  have hperm :
      (List.insertionSort rankLe (scoreAll (buildIndex tvs) q)).Perm
        (scoreAll (buildIndex tvs) q) :=
    List.perm_insertionSort rankLe _
  have hnodup : ((scoreAll (buildIndex tvs) q).map (fun s => s.chunk.pos)).Nodup := by
    rw [scoreAll_map_pos]
    rw [show buildIndex tvs = buildIndexFrom 0 tvs from rfl, map_pos_buildIndexFrom]
    exact List.nodup_range' 0 tvs.length
  have hnodup2 :
      ((List.insertionSort rankLe (scoreAll (buildIndex tvs) q)).map
        (fun s => s.chunk.pos)).Nodup :=
    ((hperm.map _).nodup_iff).mpr hnodup
  have hne :
      (List.insertionSort rankLe (scoreAll (buildIndex tvs) q)).Pairwise
        (fun x y => x.chunk.pos ≠ y.chunk.pos) :=
    List.pairwise_map.mp hnodup2
  have hfull :
      (List.insertionSort rankLe (scoreAll (buildIndex tvs) q)).Pairwise
        (fun x y => y.score ≤ x.score ∧
          (x.score = y.score → x.chunk.pos < y.chunk.pos)) := by
    refine (hsorted.and hne).imp ?_
    rintro x y ⟨hr, hpne⟩
    constructor
    · rcases hr with h | ⟨he, _⟩
      · exact le_of_lt h
      · exact le_of_eq he.symm
    · intro heq
      rcases hr with h | ⟨_, hp⟩
      · exact absurd h (by rw [heq]; exact lt_irrefl _)
      · exact lt_of_le_of_ne hp hpne
  exact List.Pairwise.sublist (List.take_sublist _ _) hfull

/-- C6: `retrieve` with `topK = 0` returns an empty result; `retrieve`
returns `min topK chunkCount` results; and with `topK` at least the number
of chunks it returns all scored chunks (as a permutation), raising no
error. -/
theorem claim6_topk_bounds (idx : List Chunk) (q : List ℝ) (k j : ℕ) :
    retrieve idx q 0 = [] ∧
    (retrieve idx q k).length = min k idx.length ∧
    (retrieve idx q (idx.length + j)).Perm (scoreAll idx q) := by
  refine ⟨rfl, ?_, ?_⟩
  · show ((List.insertionSort rankLe (scoreAll idx q)).take k).length = min k idx.length
    rw [List.length_take, List.length_insertionSort]
    simp [scoreAll]
  · show ((List.insertionSort rankLe (scoreAll idx q)).take (idx.length + j)).Perm
      (scoreAll idx q)
    have hl : (List.insertionSort rankLe (scoreAll idx q)).length ≤ idx.length + j := by
      rw [List.length_insertionSort]
      simp [scoreAll]
    rw [List.take_of_length_le hl]
    exact List.perm_insertionSort rankLe _

/-- C7, counterexample: the single-space input is non-empty and shorter
than `max_chunk_len = 10`, yet `split` produces zero chunks (it is
whitespace-only), not exactly one — the claim's two halves conflict on
whitespace-only non-empty inputs. -/
theorem claim7_counterexample :
    ([' '] : List Char) ≠ [] ∧ ([' '] : List Char).length < 10 ∧
    split [' '] 10 2 = [] ∧ (split [' '] 10 2).length ≠ 1 := by
  decide

/-- C7, amended: whitespace-only (in particular empty) input splits into
zero chunks, makes `ingest` fail with `"no extractable content"`, marks
the document Failed, and a subsequent `answer` lookup of that document
fails with NotReadyError carrying that reason; an input that contains at
least one non-whitespace character and is shorter than `max_chunk_len`
splits into exactly one chunk, the whole text. -/
theorem claim7_ingest_lifecycle (text : List Char) (maxLen ov : ℕ)
    (d : String) (reg : Registry) :
    (text.all Char.isWhitespace = true →
      split text maxLen ov = [] ∧
      (ingest reg d text maxLen ov).2 = .failed "no extractable content" ∧
      lookupDoc (ingest reg d text maxLen ov).1 d =
        some (.failed "no extractable content") ∧
      answerDoc (ingest reg d text maxLen ov).1 d =
        .error (.notReady (some "no extractable content"))) ∧
    (text.all Char.isWhitespace = false → text.length < maxLen →
      split text maxLen ov = [text]) := by
  constructor
  · intro hws
    have hsplit : split text maxLen ov = [] := by simp [split, hws]
    refine ⟨hsplit, ?_, ?_, ?_⟩ <;>
      simp [ingest, hsplit, lookupDoc, answerDoc]
  · intro hws hlen
    have hne : text ≠ [] := by
      intro h
      rw [h] at hws
      simp at hws
    have hle : text.length ≤ maxLen := Nat.le_of_lt hlen
    obtain ⟨n, hlc⟩ : ∃ n, text.length = n + 1 := by
      cases text with
      | nil => exact absurd rfl hne
      | cons c cs => exact ⟨cs.length, rfl⟩
    simp only [split, hws, Bool.false_eq_true, if_false]
    rw [hlc]
    simp only [splitGo]
    rw [if_pos hle]

/-- C7, witness for the amended theorem: the whitespace branch at a single
space, the one-chunk branch at `"hello"`. -/
theorem claim7_ingest_lifecycle_witness :
    (([' '] : List Char).all Char.isWhitespace = true) ∧
    (split [' '] 10 2 = [] ∧
      (ingest [] "doc-ws" [' '] 10 2).2 = .failed "no extractable content" ∧
      lookupDoc (ingest [] "doc-ws" [' '] 10 2).1 "doc-ws" =
        some (.failed "no extractable content") ∧
      answerDoc (ingest [] "doc-ws" [' '] 10 2).1 "doc-ws" =
        .error (.notReady (some "no extractable content"))) ∧
    ("hello".toList.all Char.isWhitespace = false) ∧
    ("hello".toList.length < 40) ∧
    (split "hello".toList 40 10 = ["hello".toList]) :=
  ⟨by decide,
   (claim7_ingest_lifecycle [' '] 10 2 "doc-ws" []).1 (by decide),
   by decide, by decide,
   (claim7_ingest_lifecycle "hello".toList 40 10 "x" []).2 (by decide) (by decide)⟩

/-- C10, witness at the initial state. -/
theorem claim10_tab_gating_witness :
    ((initialHomeState.activeTab = Tab.analysis ∨
        initialHomeState.activeTab = Tab.chat) →
      initialHomeState.uploadedFile.isSome = true) ∧
    (∀ t, tabDisabled initialHomeState t = true →
      homeStep initialHomeState (.clickTab t) = initialHomeState) :=
  claim10_tab_gating initialHomeState HomeReachable.init

end DataAnalyzer
